import Mathlib

/-!
# Verification of the react-query-autosync draft synchronization engine

Shallow embedding of the draft-synchronization hooks of the
`lukesmurray/react-query-autosync` library:

* `useReactQueryAutoSync` — the read/write hook (query + mutation), whose
  current revision is the copy bundled in `vite.config.ts` (lines 90–347);
* `useReactQueryAutoSave` — the write-only hook (`src/lib/useReactQueryAutoSave.ts`);
* `ReactQueryAutoSyncSaveStatus` / `ReactQueryAutoSaveSaveStatus`
  (`src/lib/ReactQueryAutoSyncSaveStatus.ts`).

JavaScript `T | undefined` values are embedded as `Option T` (`none` =
`undefined`).  The hook's mutable pieces of state — the draft, the query-cache
value (the authoritative value), the `pendingSave` ref and the `mutateEnabled`
flag — together with the react-query mutation/query flags the status
computation reads, form one record `SyncState`.  Each callback of the hook
becomes a pure function on that record; invoking the remote commit transport is
made observable by returning the committed value in an `Option`.
-/

namespace AutoSync

/-- The save status union type from `ReactQueryAutoSyncSaveStatus.ts`:
`"loading" | "saving" | "saved" | "unsaved" | "error"`.  The write-only
variant `ReactQueryAutoSaveSaveStatus` is the same union minus `"loading"`. -/
inductive SaveStatus : Type
  | loading
  | saving
  | saved
  | unsaved
  | error
  deriving DecidableEq, Repr

/-- State of one `useReactQueryAutoSync` hook instance together with the
react-query flags it observes.

* `draft` — the `draft` state (`useState` or the injected draft provider);
* `queryData` — `queryClient.getQueryData(queryKey)` / `queryResult.data`,
  the authoritative value (last known server data);
* `pendingSave` — the `pendingSave` ref;
* `mutateEnabled` — the `mutateEnabled` option as seen through
  `mutateEnabledRef`;
* `mutInFlight` — `mutationResult.isLoading` (a commit is in flight);
* `mutError` — `mutationResult.isError`;
* `queryLoading` — `queryResult.isLoading`;
* `queryError` — `queryResult.isError`. -/
structure SyncState (T : Type) where
  draft : Option T
  queryData : Option T
  pendingSave : Bool
  mutateEnabled : Bool
  mutInFlight : Bool
  mutError : Bool
  queryLoading : Bool
  queryError : Bool
  deriving DecidableEq, Repr

/-- The mutation context built by `onMutate`: the engine stores the snapshot
under the key `previousData`. -/
structure CommitContext (T : Type) where
  previousData : Option T
  deriving DecidableEq, Repr

/-- The JS object `{ previousData, ...mutationOptions.onMutate?.(draft) }`.
`callerPrev` describes the caller-supplied `onMutate` result's own
`previousData` key: `none` when the caller returns no such key (or there is no
caller `onMutate`), `some v` when the caller's object carries the key with
value `v` — in which case the object spread overrides the engine's snapshot. -/
def buildContext {T : Type} (previousData : Option T) (callerPrev : Option (Option T)) :
    CommitContext T :=
  { previousData := callerPrev.getD previousData }

/-- The `onMutate` callback (vite.config.ts lines 168–182, and
`useReactQueryAutoSave.ts` lines 100–112 with `serverValue` for the query
cache): snapshot the last known server data, optimistically set the server
state to the new data, optimistically clear the draft, and return a context
object with the snapshotted value. -/
def onMutate {T : Type} (s : SyncState T) (draft : T) (callerPrev : Option (Option T)) :
    SyncState T × CommitContext T :=
  let previousData := s.queryData
  ({ s with queryData := some draft, draft := none },
   buildContext previousData callerPrev)

/-- `mutate(v)`: react-query marks the mutation as loading and runs `onMutate`;
the remote commit transport is invoked with `v` (returned so the invocation is
observable). -/
def mutate {T : Type} (s : SyncState T) (v : T) (callerPrev : Option (Option T)) :
    SyncState T × (T × CommitContext T) :=
  let sCtx := onMutate s v callerPrev
  ({ sCtx.1 with mutInFlight := true }, (v, sCtx.2))

/-- The stable `save` function (vite.config.ts lines 216–224 /
`useReactQueryAutoSave.ts` lines 139–147): if the draft is defined, either
record a pending save (gate disabled) or call `mutate` with the draft.  The
second component is `some (v, ctx)` exactly when the commit transport was
invoked, with the committed value `v`. -/
def save {T : Type} (s : SyncState T) (callerPrev : Option (Option T)) :
    SyncState T × Option (T × CommitContext T) :=
  match s.draft with
  | none => (s, none)
  | some d =>
    if s.mutateEnabled = false then
      ({ s with pendingSave := true }, none)
    else
      let r := mutate s d callerPrev
      (r.1, some r.2)

/-- The render-body block (vite.config.ts lines 265–268 /
`useReactQueryAutoSave.ts` lines 188–191): automatically save if mutation is
enabled and a save is pending — clear `pendingSave`, then run
`saveAndCancelDebounced` (which cancels the debounce timer and calls `save`). -/
def pendingFlush {T : Type} (s : SyncState T) (callerPrev : Option (Option T)) :
    SyncState T × Option (T × CommitContext T) :=
  if s.mutateEnabled && s.pendingSave then
    save { s with pendingSave := false } callerPrev
  else
    (s, none)

/-- The `onError` callback (vite.config.ts lines 183–201): reset the server
state to the snapshot carried in the context; then, if the user has not made
any more local changes, reset the draft to the committed value `prevDraft`;
otherwise merge the previous and current changes when a merge function is
defined, and roll the draft back to `prevDraft` when none is. -/
def onError {T : Type} (merge : Option (T → T → T)) (s : SyncState T)
    (prevDraft : T) (context : CommitContext T) : SyncState T :=
  let s1 := { s with queryData := context.previousData }
  match s1.draft with
  | none => { s1 with draft := some prevDraft }
  | some d =>
    match merge with
    | some mergeFunc => { s1 with draft := some (mergeFunc prevDraft d) }
    | none => { s1 with draft := some prevDraft }

/-- The remote commit transport rejects: react-query clears the loading flag,
sets the error flag and runs the hook's `onError` callback. -/
def commitRejected {T : Type} (merge : Option (T → T → T)) (s : SyncState T)
    (prevDraft : T) (context : CommitContext T) : SyncState T :=
  { onError merge s prevDraft context with mutInFlight := false, mutError := true }

/-- The remote commit transport resolves: react-query clears the loading and
error flags; the hook's `onSettled` invalidates the query so the authoritative
value converges to the server's canonical post-write state (here: the
optimistically applied value is already the committed one). -/
def commitResolved {T : Type} (s : SyncState T) : SyncState T :=
  { s with mutInFlight := false, mutError := false }

/-- The background-merge effect (vite.config.ts lines 321–327): when the
server data is defined, a merge function is defined and the current draft is
defined, set the draft to `merge(serverData, currentDraft)`; otherwise do
nothing. -/
def mergeEffect {T : Type} (merge : Option (T → T → T)) (s : SyncState T) :
    SyncState T :=
  match s.queryData, merge, s.draft with
  | some serverData, some mergeFunc, some localData =>
    { s with draft := some (mergeFunc serverData localData) }
  | _, _, _ => s

/-- `shouldPreventUserFromLeaving` (vite.config.ts line 272 /
`useReactQueryAutoSave.ts` line 195): `draft !== undefined &&
alertIfUnsavedChanges`, where the flag is `boolean | undefined` and an absent
flag is falsy. -/
def shouldPreventUserFromLeaving {T : Type} (draft : Option T)
    (alertIfUnsavedChanges : Option Bool) : Bool :=
  draft.isSome && alertIfUnsavedChanges.getD false

/-- The unload-guard effect registers the `beforeunload` intercept exactly
under `shouldPreventUserFromLeaving` (vite.config.ts lines 306–308). -/
def beforeUnloadRegistered {T : Type} (draft : Option T)
    (alertIfUnsavedChanges : Option Bool) : Bool :=
  shouldPreventUserFromLeaving draft alertIfUnsavedChanges

/-- The `saveStatus` computation of `useReactQueryAutoSync`
(vite.config.ts lines 329–337). -/
def saveStatus {T : Type} [DecidableEq T] (queryLoading mutLoading mutError queryError : Bool)
    (queryData draft : Option T) : SaveStatus :=
  if queryLoading then .loading
  else if mutLoading then .saving
  else if mutError || queryError then .error
  else if queryData = draft then .saved
  else .unsaved

/-- `saveStatus` read off a hook state. -/
def statusOf {T : Type} [DecidableEq T] (s : SyncState T) : SaveStatus :=
  saveStatus s.queryLoading s.mutInFlight s.mutError s.queryError s.queryData s.draft

end AutoSync

namespace AutoSave

/-- The `saveStatus` computation of the write-only hook
(`useReactQueryAutoSave.ts` lines 222–228): no query, hence no loading arm;
`serverValue` is the locally tracked authoritative mirror. -/
def saveStatus {T : Type} [DecidableEq T] (mutLoading mutError : Bool)
    (serverValue draft : Option T) : AutoSync.SaveStatus :=
  if mutLoading then .saving
  else if mutError then .error
  else if serverValue = draft then .saved
  else .unsaved

end AutoSave

namespace Debounce

/-- Modelled from the spec: the debounce primitive (`lodash.debounce`, an
external collaborator — §6 "Debounce primitive", §4.2 CommitScheduler) in its
trailing-edge form used by `saveDebounced`.  A pending window that started at
`windowStart` and whose latest `schedule()` call happened at `lastCall` fires
at `lastCall + wait`, but no later than `windowStart + maxWait` when `maxWait`
is given. -/
def fireTime (wait : Nat) (maxWait : Option Nat) (windowStart lastCall : Nat) : Nat :=
  match maxWait with
  | none => lastCall + wait
  | some mw => min (lastCall + wait) (windowStart + mw)

/-- Modelled from the spec: a discrete-event run of the trailing-edge debounce
primitive.  `calls` is the time-ordered list of `schedule()` invocations, each
carrying the draft value current at that moment; `pending` is the open window
`(windowStart, lastCall, payload)` if any.  The result is the time-ordered
list of fires, each with the payload of the window's latest call.  A pending
window fires once its `fireTime` has arrived (before the next call if that
call comes later); a call inside the window re-arms it, postponing the fire. -/
def run {α : Type} (wait : Nat) (maxWait : Option Nat) :
    List (Nat × α) → Option (Nat × Nat × α) → List (Nat × α)
  | [], none => []
  | [], some (ws, lc, a) => [(fireTime wait maxWait ws lc, a)]
  | (t, a) :: rest, none => run wait maxWait rest (some (t, t, a))
  | (t, a) :: rest, some (ws, lc, b) =>
    let ft := fireTime wait maxWait ws lc
    if ft ≤ t then
      (ft, b) :: run wait maxWait rest (some (t, t, a))
    else
      run wait maxWait rest (some (ws, t, a))

end Debounce

open AutoSync

/-- C1: For every commit that the remote transport rejects, the engine restores
the authoritative value to the snapshot taken when the commit began, and
resolves the draft at the moment the error is observed: draft undefined ⇒
draft becomes the committed value; else with a merge function ⇒
`merge(committedValue, currentDraft)`; else ⇒ the committed value. -/
theorem c1_reject_rollback_and_conflict_resolution {T : Type}
    (merge : Option (T → T → T)) (s0 : SyncState T) (b : T) (ctx : CommitContext T)
    (hdraft : s0.draft = some b) (hen : s0.mutateEnabled = true)
    (hctx : (save s0 none).2 = some (b, ctx)) (s2 : SyncState T) :
    (commitRejected merge s2 b ctx).queryData = s0.queryData ∧
    (s2.draft = none → (commitRejected merge s2 b ctx).draft = some b) ∧
    (∀ d m, s2.draft = some d → merge = some m →
      (commitRejected merge s2 b ctx).draft = some (m b d)) ∧
    (∀ d, s2.draft = some d → merge = none →
      (commitRejected merge s2 b ctx).draft = some b) := by
  have hctx' : ctx = ⟨s0.queryData⟩ := by
    simp [save, hdraft, hen, mutate, onMutate, buildContext] at hctx
    exact hctx.symm
  subst hctx'
  refine ⟨?_, ?_, ?_, ?_⟩
  · cases h2 : s2.draft with
    | none => simp [commitRejected, onError, h2]
    | some d =>
      cases merge with
      | none => simp [commitRejected, onError, h2]
      | some m => simp [commitRejected, onError, h2]
  · intro h2
    simp [commitRejected, onError, h2]
  · intro d m h2 hm
    subst hm
    simp [commitRejected, onError, h2]
  · intro d h2 hm
    subst hm
    simp [commitRejected, onError, h2]

/-- Witness for C1 at a concrete input: committed value `5`, snapshot `some 0`,
draft `7` with merge `(r, l) ↦ r * 100 + l` at the moment of the error. -/
theorem c1_reject_rollback_and_conflict_resolution_witness :
    (commitRejected (some (fun r l => r * 100 + l))
      ⟨some 7, some 5, false, true, true, false, false, false⟩ 5
      ⟨some 0⟩).queryData = some 0 ∧
    (commitRejected (some (fun r l => r * 100 + l))
      ⟨some 7, some 5, false, true, true, false, false, false⟩ 5
      ⟨some 0⟩).draft = some 507 := by
  have h := c1_reject_rollback_and_conflict_resolution
    (some (fun r l => r * 100 + l))
    ⟨some 5, some 0, false, true, false, false, false, false⟩ 5 ⟨some 0⟩
    rfl rfl (by decide)
    ⟨some 7, some 5, false, true, true, false, false, false⟩
  exact ⟨h.1, h.2.2.1 7 (fun r l => r * 100 + l) rfl rfl⟩

/-- C2: For every commit trigger with a defined draft (gate enabled), the
engine snapshots the previous authoritative value into the commit context,
sets the authoritative value to the draft, clears the draft to undefined, and
invokes the remote commit transport with the committed value. -/
theorem c2_commit_trigger_optimistic_apply {T : Type} (s : SyncState T) (d : T)
    (hdraft : s.draft = some d) (hen : s.mutateEnabled = true) :
    (save s none).1.queryData = some d ∧
    (save s none).1.draft = none ∧
    (save s none).1.mutInFlight = true ∧
    (save s none).2 = some (d, ⟨s.queryData⟩) := by
  simp [save, hdraft, hen, mutate, onMutate, buildContext]

/-- Witness for C2 at a concrete input: state with draft `3`, authoritative
`some 9`, gate enabled. -/
theorem c2_commit_trigger_optimistic_apply_witness :
    (save (⟨some 3, some 9, false, true, false, false, false, false⟩ : SyncState Nat)
        none).1.queryData = some 3 ∧
    (save (⟨some 3, some 9, false, true, false, false, false, false⟩ : SyncState Nat)
        none).1.draft = none ∧
    (save (⟨some 3, some 9, false, true, false, false, false, false⟩ : SyncState Nat)
        none).1.mutInFlight = true ∧
    (save (⟨some 3, some 9, false, true, false, false, false, false⟩ : SyncState Nat)
        none).2 = some (3, ⟨some 9⟩) :=
  c2_commit_trigger_optimistic_apply
    ⟨some 3, some 9, false, true, false, false, false, false⟩ 3 rfl rfl

/-- C3: With the gate disabled, a save request with a defined draft invokes no
commit, only sets the pending-commit flag; and when the gate transitions to
enabled while the flag is set, the flag is cleared and exactly one commit
request is issued. -/
theorem c3_gated_commit {T : Type} (s : SyncState T) (x : T)
    (cp : Option (Option T)) :
    (s.mutateEnabled = false → s.draft = some x →
      save s cp = ({ s with pendingSave := true }, none)) ∧
    (s.pendingSave = true → s.draft = some x →
      (pendingFlush { s with mutateEnabled := true } cp).1.pendingSave = false ∧
      (pendingFlush { s with mutateEnabled := true } cp).2 =
        some (x, buildContext s.queryData cp)) := by
  constructor
  · intro hen hdraft
    simp [save, hdraft, hen]
  · intro hpend hdraft
    constructor
    · simp [pendingFlush, hpend, save, hdraft, mutate, onMutate]
    · simp [pendingFlush, hpend, save, hdraft, mutate, onMutate]

/-- Witness for C3 at a concrete input: draft `4`, gate disabled, then the
enable transition flushes exactly one commit request carrying `4`. -/
theorem c3_gated_commit_witness :
    (save (⟨some 4, some 1, false, false, false, false, false, false⟩ : SyncState Nat)
        none =
      ({ draft := some 4, queryData := some 1, pendingSave := true,
         mutateEnabled := false, mutInFlight := false, mutError := false,
         queryLoading := false, queryError := false }, none)) ∧
    ((pendingFlush (⟨some 4, some 1, true, true, false, false, false, false⟩ :
        SyncState Nat) none).1.pendingSave = false ∧
      (pendingFlush (⟨some 4, some 1, true, true, false, false, false, false⟩ :
        SyncState Nat) none).2 = some (4, buildContext (some 1) none)) := by
  have h1 := (c3_gated_commit
    (⟨some 4, some 1, false, false, false, false, false, false⟩ : SyncState Nat)
    4 none).1 rfl rfl
  have h2 := (c3_gated_commit
    (⟨some 4, some 1, true, false, false, false, false, false⟩ : SyncState Nat)
    4 none).2 rfl rfl
  exact ⟨h1, h2⟩

/-- C4 (code bug): a commit of draft value `1` that resolves successfully
leaves the draft undefined and the authoritative value at `1`, but the derived
save status is `unsaved`, not `saved`: the code compares
`queryData === draft`, which is false for `some 1` vs `undefined`, although
the status type's documentation says `saved` means query and server are in
sync and `unsaved` means there are unsaved local changes. -/
theorem c4_success_clears_draft_but_status_is_unsaved :
    (commitResolved (save (⟨some 1, some 0, false, true, false, false, false,
        false⟩ : SyncState Nat) none).1).draft = none ∧
    (commitResolved (save (⟨some 1, some 0, false, true, false, false, false,
        false⟩ : SyncState Nat) none).1).queryData = some 1 ∧
    statusOf (commitResolved (save (⟨some 1, some 0, false, true, false, false,
        false, false⟩ : SyncState Nat) none).1) = .unsaved ∧
    statusOf (commitResolved (save (⟨some 1, some 0, false, true, false, false,
        false, false⟩ : SyncState Nat) none).1) ≠ .saved ∧
    AutoSave.saveStatus false false (some 1) (none : Option Nat) = .unsaved := by
  decide

/-- C5: the save status is a pure function of the remote loading flag, the
commit-in-flight flag, the error flags and the draft-vs-authoritative
equality, evaluated in the fixed priority order
loading > saving > error > saved > unsaved; the write-only variant never
yields `loading`. -/
theorem c5_status_priority_order {T : Type} [DecidableEq T] :
    (∀ (ml me qe : Bool) (qd dr : Option T),
      AutoSync.saveStatus true ml me qe qd dr = .loading) ∧
    (∀ (me qe : Bool) (qd dr : Option T),
      AutoSync.saveStatus false true me qe qd dr = .saving) ∧
    (∀ (me qe : Bool) (qd dr : Option T), (me || qe) = true →
      AutoSync.saveStatus false false me qe qd dr = .error) ∧
    (∀ qd dr : Option T, qd = dr →
      AutoSync.saveStatus false false false false qd dr = .saved) ∧
    (∀ qd dr : Option T, qd ≠ dr →
      AutoSync.saveStatus false false false false qd dr = .unsaved) ∧
    (∀ (ml me : Bool) (sv dr : Option T),
      AutoSave.saveStatus ml me sv dr ≠ .loading) := by
  refine ⟨?_, ?_, ?_, ?_, ?_, ?_⟩
  · intro ml me qe qd dr
    simp [AutoSync.saveStatus]
  · intro me qe qd dr
    simp [AutoSync.saveStatus]
  · intro me qe qd dr h
    simp [AutoSync.saveStatus, h]
  · intro qd dr h
    simp [AutoSync.saveStatus, h]
  · intro qd dr h
    simp [AutoSync.saveStatus, h]
  · intro ml me sv dr
    unfold AutoSave.saveStatus
    rcases ml with _ | _ <;> rcases me with _ | _ <;>
      by_cases h : sv = dr <;> simp [h]

/-- Witness for C5 at concrete inputs: the error arm with a commit error, the
saved arm with equal values, and the write-only variant not loading. -/
theorem c5_status_priority_order_witness :
    AutoSync.saveStatus false false true false (some 1) (some (1 : Nat)) = .error ∧
    AutoSync.saveStatus false false false false (some 2) (some (2 : Nat)) = .saved ∧
    AutoSync.saveStatus false false false false (some 3) (none : Option Nat) = .unsaved ∧
    AutoSave.saveStatus true false (some 1) (some (1 : Nat)) ≠ .loading := by
  refine ⟨?_, ?_, ?_, ?_⟩
  · exact (c5_status_priority_order (T := Nat)).2.2.1 true false (some 1) (some 1) rfl
  · exact (c5_status_priority_order (T := Nat)).2.2.2.1 (some 2) (some 2) rfl
  · exact (c5_status_priority_order (T := Nat)).2.2.2.2.1 (some 3) none (by decide)
  · exact (c5_status_priority_order (T := Nat)).2.2.2.2.2 true false (some 1) (some 1)

/-- C6: when the remote source reports a new authoritative value `R`: if the
draft is defined and a merge function is supplied, the draft becomes
`merge(R, draft)`; if the draft is undefined, nothing else changes; and if no
merge function is supplied, nothing else changes regardless of the draft. -/
theorem c6_background_merge {T : Type} (merge : Option (T → T → T))
    (s : SyncState T) (R : T) :
    (∀ d m, s.draft = some d → merge = some m →
      mergeEffect merge { s with queryData := some R } =
        { s with queryData := some R, draft := some (m R d) }) ∧
    (s.draft = none →
      mergeEffect merge { s with queryData := some R } =
        { s with queryData := some R }) ∧
    (merge = none →
      mergeEffect merge { s with queryData := some R } =
        { s with queryData := some R }) := by
  refine ⟨?_, ?_, ?_⟩
  · intro d m hd hm
    subst hm
    simp [mergeEffect, hd]
  · intro hd
    cases merge with
    | none => simp [mergeEffect, hd]
    | some m => simp [mergeEffect, hd]
  · intro hm
    subst hm
    simp [mergeEffect]

/-- Witness for C6 at a concrete input: remote value `10` merged into draft
`3` with merge `(r, l) ↦ r + l`, and the two no-action cases. -/
theorem c6_background_merge_witness :
    mergeEffect (some (fun r l => r + l))
        ({ draft := some 3, queryData := some 10, pendingSave := false,
           mutateEnabled := true, mutInFlight := false, mutError := false,
           queryLoading := false, queryError := false } : SyncState Nat) =
      { draft := some 13, queryData := some 10, pendingSave := false,
        mutateEnabled := true, mutInFlight := false, mutError := false,
        queryLoading := false, queryError := false } ∧
    mergeEffect (some (fun r l => r + l))
        ({ draft := none, queryData := some 10, pendingSave := false,
           mutateEnabled := true, mutInFlight := false, mutError := false,
           queryLoading := false, queryError := false } : SyncState Nat) =
      { draft := none, queryData := some 10, pendingSave := false,
        mutateEnabled := true, mutInFlight := false, mutError := false,
        queryLoading := false, queryError := false } ∧
    mergeEffect (none : Option (Nat → Nat → Nat))
        ({ draft := some 3, queryData := some 10, pendingSave := false,
           mutateEnabled := true, mutInFlight := false, mutError := false,
           queryLoading := false, queryError := false } : SyncState Nat) =
      { draft := some 3, queryData := some 10, pendingSave := false,
        mutateEnabled := true, mutInFlight := false, mutError := false,
        queryLoading := false, queryError := false } := by
  refine ⟨?_, ?_, ?_⟩
  · exact (c6_background_merge (some (fun r l => r + l))
      ⟨some 3, some 10, false, true, false, false, false, false⟩ 10).1
      3 (fun r l => r + l) rfl rfl
  · exact (c6_background_merge (some (fun r l => r + l))
      ⟨none, some 10, false, true, false, false, false, false⟩ 10).2.1 rfl
  · exact (c6_background_merge (none : Option (Nat → Nat → Nat))
      ⟨some 3, some 10, false, true, false, false, false, false⟩ 10).2.2 rfl

/-- C7: with `wait = 100`, schedule calls at t = 0, 30, 60 (payload = the
draft value current at each edit) produce exactly one fire, at t = 160,
carrying the value set at t = 60, and that fire's `save` issues exactly one
commit with that value; in general a second call within `wait` postpones the
fire to its own time plus `wait`, and with `maxWait` set the fire time never
exceeds the window start plus `maxWait`. -/
theorem c7_debounce_coalescing :
    Debounce.run 100 none [(0, 10), (30, 20), (60, 30)] none = [(160, 30)] ∧
    (∀ (wait t1 t2 a b : Nat), t2 < t1 + wait →
      Debounce.run wait none [(t1, a), (t2, b)] none = [(t2 + wait, b)]) ∧
    (∀ (wait mw ws lc : Nat), Debounce.fireTime wait (some mw) ws lc ≤ ws + mw) ∧
    (∀ s : SyncState Nat, s.draft = some 30 → s.mutateEnabled = true →
      (save s none).2 = some (30, ⟨s.queryData⟩)) := by
  refine ⟨by decide, ?_, ?_, ?_⟩
  · intro wait t1 t2 a b h
    simp [Debounce.run, Debounce.fireTime, show ¬(t1 + wait ≤ t2) by omega]
  · intro wait mw ws lc
    simp [Debounce.fireTime]
  · intro s hd hen
    simp [save, hd, hen, mutate, onMutate, buildContext]

/-- Witness for C7 at concrete inputs: two calls 30 ms apart with
`wait = 100` fire once at the second call plus 100; `maxWait = 150` bounds the
fire time; the fired save commits the scheduled draft. -/
theorem c7_debounce_coalescing_witness :
    Debounce.run 100 none [(0, 1), (30, 2)] none = [(130, 2)] ∧
    Debounce.fireTime 100 (some 150) 0 90 ≤ 150 ∧
    (save (⟨some 30, some 0, false, true, false, false, false, false⟩ :
        SyncState Nat) none).2 = some (30, ⟨some 0⟩) := by
  refine ⟨?_, ?_, ?_⟩
  · exact c7_debounce_coalescing.2.1 100 0 30 1 2 (by decide)
  · exact c7_debounce_coalescing.2.2.1 100 150 0 90
  · exact c7_debounce_coalescing.2.2.2
      ⟨some 30, some 0, false, true, false, false, false, false⟩ rfl rfl

/-- C8: for every state in which the draft is undefined, `save()` is a no-op:
no commit is invoked and the engine state is unchanged. -/
theorem c8_save_noop_without_draft {T : Type} (s : SyncState T)
    (cp : Option (Option T)) (h : s.draft = none) :
    save s cp = (s, none) := by
  simp [save, h]

/-- Witness for C8 at a concrete input: a state with no draft. -/
theorem c8_save_noop_without_draft_witness :
    save (⟨none, some 2, false, true, false, false, false, false⟩ : SyncState Nat)
        none =
      (⟨none, some 2, false, true, false, false, false, false⟩, none) :=
  c8_save_noop_without_draft
    ⟨none, some 2, false, true, false, false, false, false⟩ none rfl

/-- C9: the `beforeunload` navigation intercept is registered exactly when the
draft is defined and the caller-supplied `alertIfUnsavedChanges` flag is set;
in every other state no intercept is registered. -/
theorem c9_unload_guard_exactly_when_unsaved {T : Type} (draft : Option T)
    (alert : Option Bool) :
    beforeUnloadRegistered draft alert = true ↔
      (draft ≠ none ∧ alert = some true) := by
  cases draft <;> rcases alert with _ | _ | _ <;>
    simp [beforeUnloadRegistered, shouldPreventUserFromLeaving]

/-- C10: the commit context is `{ previousData, ...callerOnMutateResult }`:
when the caller's `onMutate` result carries a `previousData` key, the object
spread replaces the engine's snapshot with the caller's value, and rollback on
commit error restores the caller's value; when the caller's result lacks the
key, rollback restores the engine's snapshot. -/
theorem c10_caller_context_overrides_snapshot {T : Type} (s : SyncState T)
    (merge : Option (T → T → T)) (d b : T) (callerVal prev : Option T)
    (s2 : SyncState T) :
    (onMutate s d (some callerVal)).2 = ⟨callerVal⟩ ∧
    (onMutate s d none).2 = ⟨s.queryData⟩ ∧
    (buildContext prev (some callerVal)).previousData = callerVal ∧
    (buildContext prev none).previousData = prev ∧
    (commitRejected merge s2 b (buildContext prev (some callerVal))).queryData =
      callerVal ∧
    (commitRejected merge s2 b (buildContext prev none)).queryData = prev := by
  have hq : ∀ ctx : CommitContext T,
      (commitRejected merge s2 b ctx).queryData = ctx.previousData := by
    intro ctx
    cases h2 : s2.draft with
    | none => simp [commitRejected, onError, h2]
    | some x =>
      cases merge with
      | none => simp [commitRejected, onError, h2]
      | some m => simp [commitRejected, onError, h2]
  exact ⟨rfl, rfl, rfl, rfl, hq _, hq _⟩
